import Mathlib

/-!
Verification of the EngineeringNotation repository (EngineeringNotation.py).

Shallow embedding: Python floats are modelled as exact rationals, with the
mathematical (exact) semantics of log10, round and fixed-point formatting.
Python ints and the Python dynamic values accepted by the public entry
points are modelled by the PyVal type below.  Fallible calls return
Except String String, the error string being the exception message.
-/

namespace EngineeringNotation

/-- Largest n with 10 ^ n ≤ m, for m ≥ 1 (fuel-indexed helper; the fuel is
always at least the number of divisions by 10 that can happen). -/
def natLog10F : ℕ → ℕ → ℕ
  | 0, _ => 0
  | f + 1, m => if m < 10 then 0 else natLog10F f (m / 10) + 1

/-- Largest n with 10 ^ n ≤ m, for m ≥ 1; returns 0 for m = 0. -/
def natLog10 (m : ℕ) : ℕ := natLog10F m m

/-- Least n with m ≤ 10 ^ n, for m ≥ 1 (fuel-indexed helper). -/
def natClog10F : ℕ → ℕ → ℕ
  | 0, _ => 0
  | f + 1, m => if m ≤ 1 then 0 else natClog10F f ((m + 9) / 10) + 1

/-- Least n with m ≤ 10 ^ n. -/
def natClog10 (m : ℕ) : ℕ := natClog10F m m

/-- Truncation toward zero of log10 of a positive rational: the exact value
of the Python expression int(log10(q)).  For q ≥ 1 this is the largest n
with 10 ^ n ≤ q; for 0 < q < 1 it is minus the largest n with 10 ^ n ≤ 1/q
(truncation of a negative real rounds it up toward zero). -/
def tlog10 (q : ℚ) : ℤ :=
  if 1 ≤ q then (natLog10 ⌊q⌋.toNat : ℤ)
  else -(natLog10 ⌊q⁻¹⌋.toNat : ℤ)

/-- Floor of log10 of a positive rational (used only to state claim C4,
which words the algorithm with floor(log10(|x|))).  For 0 < q < 1 the floor
of a negative real is minus the ceiling of its negation. -/
def flog10 (q : ℚ) : ℤ :=
  if 1 ≤ q then (natLog10 ⌊q⌋.toNat : ℤ)
  else -(natClog10 ⌈q⁻¹⌉.toNat : ℤ)

/-- EngineeringNotation.py lines 64-65: if exponent < 0 then exponent -= 1. -/
def negBias (e : ℤ) : ℤ := if e < 0 then e - 1 else e

/-- EngineeringNotation.py lines 66-67: the loop
while exponent % 3 != 0: exponent -= 1, unrolled.  Python e % 3 is
Int.emod e 3, which lies in \x7b0, 1, 2\x7d, so the loop body runs at most
twice. -/
def decToMult3 (e : ℤ) : ℤ :=
  if Int.emod e 3 = 0 then e
  else if Int.emod (e - 1) 3 = 0 then e - 1
  else e - 2

/-- EngineeringNotation.py lines 51-68, _get_engineering_exponent:
zero maps to exponent 0; otherwise exponent = int(log10(abs(number))),
biased one step down when negative, then decremented to a multiple of 3. -/
def get_engineering_exponent (number : ℚ) : ℤ :=
  if number = 0 then 0
  else decToMult3 (negBias (tlog10 |number|))

/-- EngineeringNotation.py lines 71-88, _get_exp_str.  Both the positive
and the negative branch of the source produce the f-string E followed by
str(exponent); a positive Python int prints without a sign. -/
def get_exp_str (exponent : ℤ) : String :=
  if exponent > 0 then "E" ++ toString exponent
  else if exponent < 0 then "E" ++ toString exponent
  else ""

/-- EngineeringNotation.py lines 6-48, the _si_prefixes dict, read through
dict.get as in line 110: the stored value at key 0 is None and dict.get
returns None for absent keys as well, so both cases collapse to none. -/
def si_prefixes (e : ℤ) : Option String :=
  if e = -60 then some "yy"
  else if e = -57 then some "yr"
  else if e = -54 then some "yy"
  else if e = -51 then some "yz"
  else if e = -48 then some "ya"
  else if e = -45 then some "yf"
  else if e = -42 then some "yp"
  else if e = -39 then some "yn"
  else if e = -36 then some "yμ"
  else if e = -33 then some "ym"
  else if e = -30 then some "y"
  else if e = -27 then some "r"
  else if e = -24 then some "y"
  else if e = -21 then some "z"
  else if e = -18 then some "a"
  else if e = -15 then some "f"
  else if e = -12 then some "p"
  else if e = -9 then some "n"
  else if e = -6 then some "μ"
  else if e = -3 then some "m"
  else if e = 0 then none
  else if e = 3 then some "k"
  else if e = 6 then some "M"
  else if e = 9 then some "G"
  else if e = 12 then some "T"
  else if e = 15 then some "P"
  else if e = 18 then some "E"
  else if e = 21 then some "Z"
  else if e = 24 then some "Y"
  else if e = 27 then some "R"
  else if e = 30 then some "Q"
  else if e = 33 then some "Qk"
  else if e = 36 then some "QM"
  else if e = 39 then some "QG"
  else if e = 42 then some "QT"
  else if e = 45 then some "QP"
  else if e = 48 then some "QE"
  else if e = 51 then some "QZ"
  else if e = 54 then some "QY"
  else if e = 57 then some "QR"
  else if e = 60 then some "QQ"
  else none

/-- Round a rational to the nearest integer, ties to the even integer:
the exact semantics of Python round() on a real value. -/
def roundHalfEven (q : ℚ) : ℤ :=
  if q - (⌊q⌋ : ℚ) < 1/2 then ⌊q⌋
  else if (1/2 : ℚ) < q - (⌊q⌋ : ℚ) then ⌊q⌋ + 1
  else if Int.emod ⌊q⌋ 2 = 0 then ⌊q⌋ else ⌊q⌋ + 1

/-- The fractional digits of a, p places, left-padded with zeros:
10 ^ p + a % 10 ^ p has exactly p + 1 digits, and the leading 1 is
dropped. -/
def padFrac (p : ℕ) (a : ℕ) : String :=
  (Nat.repr (10 ^ p + a % 10 ^ p)).drop 1

/-- The exact value of the Python pipeline
format(round(m, p), f) with f the fixed-point format .pf used on
lines 111 and 135: m rounded half-to-even at p decimal places and printed
with exactly p digits after the point (none, and no point, when p = 0).
The sign is the sign of m, as in Python, where a negative value that
rounds to zero prints as negative zero. -/
def fmtMantissa (p : ℕ) (m : ℚ) : String :=
  (if m < 0 then "-" else "")
    ++ (if p = 0 then Nat.repr (roundHalfEven (m * 10 ^ p)).natAbs
        else Nat.repr ((roundHalfEven (m * 10 ^ p)).natAbs / 10 ^ p)
              ++ "." ++ padFrac p (roundHalfEven (m * 10 ^ p)).natAbs)

/-- The mantissa construction of lines 111 and 135 for a Python int
round_to_decimal_places p of either sign: the format mini-language rejects
a negative precision with a ValueError (the real message also quotes the
offending specifier and the value type). -/
def mantissaStr (p : ℤ) (m : ℚ) : Except String String :=
  if p < 0 then .error "ValueError: Invalid format specifier"
  else .ok (fmtMantissa p.toNat m)

/-- Python str.rstrip() as used on line 113: drop trailing whitespace. -/
def rstrip (s : String) : String :=
  ⟨(s.data.reverse.dropWhile Char.isWhitespace).reverse⟩

/-- EngineeringNotation.py lines 109-113, the body of si_form after
validation.  The exponent of line 109 is referenced twice below; the
computation is pure so the value is the same. -/
def si_formCore (x : ℚ) (u : String) (p : ℤ) : Except String String :=
  match mantissaStr p (x / 10 ^ get_engineering_exponent x) with
  | .error e => .error e
  | .ok m =>
    match si_prefixes (get_engineering_exponent x) with
    | some pre => .ok (rstrip (m ++ " " ++ pre ++ u))
    | none => .ok (rstrip (m ++ " " ++ u))

/-- EngineeringNotation.py lines 134-136, the body of engineering_form
after validation. -/
def engineering_formCore (x : ℚ) (u : String) (p : ℤ) : Except String String :=
  match mantissaStr p (x / 10 ^ get_engineering_exponent x) with
  | .error e => .error e
  | .ok m =>
    if u ≠ "" then .ok (m ++ get_exp_str (get_engineering_exponent x) ++ " " ++ u)
    else .ok (m ++ get_exp_str (get_engineering_exponent x))

/-- A Python value as passed to the public entry points: an int, a float,
a bool (which in Python is a subclass of int) or a str. -/
inductive PyVal where
  | int (n : ℤ)
  | float (q : ℚ)
  | bool (b : Bool)
  | str (s : String)

/-- isinstance(v, (int, float)).  True for bools: Python bool is a
subclass of int. -/
def isNumber : PyVal → Bool
  | .int _ => true
  | .float _ => true
  | .bool _ => true
  | .str _ => false

/-- isinstance(v, str). -/
def isStr : PyVal → Bool
  | .str _ => true
  | _ => false

/-- isinstance(v, int).  True for bools as well. -/
def isIntLike : PyVal → Bool
  | .int _ => true
  | .bool _ => true
  | _ => false

/-- The numeric value of a PyVal known to be numeric; True counts as 1 and
False as 0.  The str arm is unreachable behind the isNumber guard. -/
def toRat : PyVal → ℚ
  | .int n => (n : ℚ)
  | .float q => q
  | .bool b => if b then 1 else 0
  | .str _ => 0

/-- The integer value of a PyVal known to satisfy isinstance(v, int). -/
def toInt : PyVal → ℤ
  | .int n => n
  | .bool b => if b then 1 else 0
  | _ => 0

/-- The string value of a PyVal known to be a str. -/
def toStrVal : PyVal → String
  | .str s => s
  | _ => ""

/-- EngineeringNotation.py lines 91-113, si_form with its three
isinstance validations (lines 103-108).  The messages are the literal
TypeError messages of the source, which name engineering_form in all
three checks of si_form as well. -/
def si_form (number unit rtdp : PyVal) : Except String String :=
  if !(isNumber number) then
    .error "engineering_form() input number only accepts numbers (int or float)"
  else if !(isStr unit) then
    .error "engineering_form() input unit only accepts strings"
  else if !(isIntLike rtdp) then
    .error "engineering_form() input round_to_decimal_places only accepts integers"
  else si_formCore (toRat number) (toStrVal unit) (toInt rtdp)

/-- EngineeringNotation.py lines 116-136, engineering_form with its three
isinstance validations (lines 128-133). -/
def engineering_form (number unit rtdp : PyVal) : Except String String :=
  if !(isNumber number) then
    .error "engineering_form() input number only accepts numbers (int or float)"
  else if !(isStr unit) then
    .error "engineering_form() input unit only accepts strings"
  else if !(isIntLike rtdp) then
    .error "engineering_form() input round_to_decimal_places only accepts integers"
  else engineering_formCore (toRat number) (toStrVal unit) (toInt rtdp)

/-- EngineeringNotation.py lines 139-145, the sif alias. -/
def sif (num uni prec : PyVal) : Except String String :=
  if !(isNumber num) then .error "sif() only accepts numbers"
  else si_form num uni prec

/-- EngineeringNotation.py lines 148-154, the engf alias. -/
def engf (num uni prec : PyVal) : Except String String :=
  if !(isNumber num) then .error "engf() only accepts numbers"
  else engineering_form num uni prec

/-- Whether the list needle occurs at the head of the list hay. -/
def listLeads : List Char → List Char → Bool
  | [], _ => true
  | _ :: _, [] => false
  | a :: as, b :: bs => a == b && listLeads as bs

/-- Whether needle occurs as a contiguous substring of hay. -/
def strContains (hay needle : String) : Bool :=
  hay.data.tails.any (listLeads needle.data)

/-- The largest multiple of 3 at most e, written directly (claims C4
describe the loop of lines 66-67 as repeated decrement until divisible
by 3). -/
def roundDownMult3 (e : ℤ) : ℤ := e - Int.emod e 3

/-- Claim C4 as amended: compute the truncation toward zero of
log10(|x|) — the Python int() of the float log10 — decrement by one if
negative, then take the next multiple of 3 below. -/
def specExponentAlgTrunc (x : ℚ) : ℤ :=
  roundDownMult3 (if tlog10 |x| < 0 then tlog10 |x| - 1 else tlog10 |x|)

/-- Claim C4 exactly as stated: compute floor(log10(|x|)); if that value
is negative, decrement it by one; then decrement repeatedly until it is
divisible by 3. -/
def specExponentAlgFloor (x : ℚ) : ℤ :=
  roundDownMult3 (if flog10 |x| < 0 then flog10 |x| - 1 else flog10 |x|)

/-- The truncate-toward-a-multiple-of-3 loop computes the largest multiple
of 3 that is at most its argument. -/
lemma decToMult3_eq (e : ℤ) : decToMult3 e = e - Int.emod e 3 := by
  unfold decToMult3
  have h1 : Int.emod e 3 = e % 3 := rfl
  have h2 : Int.emod (e - 1) 3 = (e - 1) % 3 := rfl
  rw [h1, h2]
  split_ifs <;> omega

/-- The prefix lookup is empty exactly at exponent 0 (where the table
stores None), at non-multiples of 3, and outside the table range
-60 .. 60. -/
lemma si_prefixes_none_iff (e : ℤ) :
    si_prefixes e = none ↔ (e = 0 ∨ e < -60 ∨ 60 < e ∨ e % 3 ≠ 0) := by
  by_cases hlo : e < -60
  · have hn : si_prefixes e = none := by
      unfold si_prefixes
      repeat rw [if_neg (by omega)]
    exact iff_of_true hn (by omega)
  · by_cases hhi : 60 < e
    · have hn : si_prefixes e = none := by
        unfold si_prefixes
        repeat rw [if_neg (by omega)]
      exact iff_of_true hn (by omega)
    · push_neg at hlo hhi
      interval_cases e <;> decide

lemma si_prefixes_zero : si_prefixes 0 = none := rfl

/-- rstrip leaves a string ending in the non-whitespace character V
unchanged. -/
lemma rstrip_space_V (s : String) : rstrip (s ++ " V") = s ++ " V" := by
  apply String.ext
  rw [rstrip, String.data_append]
  rw [show (" V" : String).data = [' ', 'V'] from rfl]
  simp [List.dropWhile_cons, show Char.isWhitespace 'V' = false from rfl]

/-- Rounding half-to-even at an integer is the identity. -/
lemma roundHalfEven_intCast (n : ℤ) : roundHalfEven ((n : ℚ)) = n := by
  rw [roundHalfEven]
  norm_num

/-- Correctness of the fuelled decimal logarithm: with enough fuel it
returns the exponent of the largest power of 10 below m. -/
lemma natLog10F_spec : ∀ (f m : ℕ), 1 ≤ m → m ≤ f →
    10 ^ natLog10F f m ≤ m ∧ m < 10 ^ (natLog10F f m + 1) := by
  intro f
  induction f with
  | zero => intro m h1 h2; omega
  | succ f ih =>
    intro m h1 h2
    rw [natLog10F]
    split_ifs with h
    · simpa using ⟨h1, h⟩
    · have hm : 10 ≤ m := by omega
      have hd : 1 ≤ m / 10 := (Nat.one_le_div_iff (by norm_num)).mpr hm
      have hf : m / 10 ≤ f := by
        have := Nat.div_lt_self (show 0 < m by omega) (show 1 < 10 by norm_num)
        omega
      obtain ⟨ha, hb⟩ := ih (m / 10) hd hf
      constructor
      · calc 10 ^ (natLog10F f (m / 10) + 1)
            = 10 ^ natLog10F f (m / 10) * 10 := by ring
          _ ≤ m / 10 * 10 := Nat.mul_le_mul_right 10 ha
          _ ≤ m := Nat.div_mul_le_self m 10
      · have h10 : m < (m / 10 + 1) * 10 := by
          have := Nat.div_add_mod m 10
          have := Nat.mod_lt m (show 0 < 10 by norm_num)
          omega
        calc m < (m / 10 + 1) * 10 := h10
          _ ≤ 10 ^ (natLog10F f (m / 10) + 1) * 10 := Nat.mul_le_mul_right 10 hb
          _ = 10 ^ (natLog10F f (m / 10) + 1 + 1) := by ring

/-- natLog10 m is the largest n with 10 ^ n ≤ m, for m ≥ 1. -/
lemma natLog10_spec (m : ℕ) (h : 1 ≤ m) :
    10 ^ natLog10 m ≤ m ∧ m < 10 ^ (natLog10 m + 1) :=
  natLog10F_spec m m h le_rfl

lemma fmtMantissa_three_zero : fmtMantissa 3 ((0 : ℚ)) = "0.000" := by
  have h : ((0 : ℚ)) * 10 ^ (3 : ℕ) = ((0 : ℤ) : ℚ) := by norm_num
  rw [fmtMantissa, h, roundHalfEven_intCast, if_neg (by norm_num : ¬(0 : ℚ) < 0)]
  decide

lemma fmtMantissa_three_one : fmtMantissa 3 ((1 : ℚ)) = "1.000" := by
  have h : ((1 : ℚ)) * 10 ^ (3 : ℕ) = ((1000 : ℤ) : ℚ) := by norm_num
  rw [fmtMantissa, h, roundHalfEven_intCast, if_neg (by norm_num : ¬(1 : ℚ) < 0)]
  decide

lemma fmtMantissa_three_thousand : fmtMantissa 3 ((1000 : ℚ)) = "1000.000" := by
  have h : ((1000 : ℚ)) * 10 ^ (3 : ℕ) = ((1000000 : ℤ) : ℚ) := by norm_num
  rw [fmtMantissa, h, roundHalfEven_intCast, if_neg (by norm_num : ¬(1000 : ℚ) < 0)]
  decide

lemma gee_zero : get_engineering_exponent 0 = 0 := by
  unfold get_engineering_exponent
  rw [if_pos rfl]

lemma gee_one : get_engineering_exponent 1 = 0 := by
  unfold get_engineering_exponent
  rw [if_neg (by norm_num : (1 : ℚ) ≠ 0), abs_one]
  rw [tlog10, if_pos (by norm_num : (1 : ℚ) ≤ 1), Int.floor_one]
  decide

lemma gee_half : get_engineering_exponent ((1 : ℚ) / 2) = 0 := by
  unfold get_engineering_exponent
  rw [if_neg (by norm_num : ((1 : ℚ) / 2) ≠ 0),
    abs_of_pos (by norm_num : (0 : ℚ) < 1 / 2)]
  rw [tlog10, if_neg (by norm_num),
    show ((1 : ℚ) / 2)⁻¹ = ((2 : ℤ) : ℚ) by norm_num, Int.floor_intCast]
  decide

lemma gee_thousandth : get_engineering_exponent ((1 : ℚ) / 1000) = -6 := by
  unfold get_engineering_exponent
  rw [if_neg (by norm_num : ((1 : ℚ) / 1000) ≠ 0),
    abs_of_pos (by norm_num : (0 : ℚ) < 1 / 1000)]
  rw [tlog10, if_neg (by norm_num),
    show ((1 : ℚ) / 1000)⁻¹ = ((1000 : ℤ) : ℚ) by norm_num, Int.floor_intCast]
  decide

lemma gee_billionth : get_engineering_exponent ((1 : ℚ) / 1000000000) = -12 := by
  unfold get_engineering_exponent
  rw [if_neg (by norm_num : ((1 : ℚ) / 1000000000) ≠ 0),
    abs_of_pos (by norm_num : (0 : ℚ) < 1 / 1000000000)]
  rw [tlog10, if_neg (by norm_num),
    show ((1 : ℚ) / 1000000000)⁻¹ = ((1000000000 : ℤ) : ℚ) by norm_num,
    Int.floor_intCast]
  decide

lemma gee_pow15 : get_engineering_exponent ((1000000000000000 : ℚ)) = 15 := by
  unfold get_engineering_exponent
  rw [if_neg (by norm_num : ((1000000000000000 : ℚ)) ≠ 0),
    abs_of_pos (by norm_num : (0 : ℚ) < 1000000000000000)]
  rw [tlog10, if_pos (by norm_num : (1 : ℚ) ≤ 1000000000000000),
    show ((1000000000000000 : ℚ)) = ((1000000000000000 : ℤ) : ℚ) by norm_num,
    Int.floor_intCast]
  decide

lemma gee_pow63 : get_engineering_exponent
    ((1000000000000000000000000000000000000000000000000000000000000000 : ℚ)) = 63 := by
  unfold get_engineering_exponent
  rw [if_neg (by norm_num :
      ((1000000000000000000000000000000000000000000000000000000000000000 : ℚ)) ≠ 0),
    abs_of_pos (by norm_num :
      (0 : ℚ) < 1000000000000000000000000000000000000000000000000000000000000000)]
  rw [tlog10, if_pos (by norm_num :
      (1 : ℚ) ≤ 1000000000000000000000000000000000000000000000000000000000000000),
    show ((1000000000000000000000000000000000000000000000000000000000000000 : ℚ))
      = ((1000000000000000000000000000000000000000000000000000000000000000 : ℤ) : ℚ) by
        norm_num,
    Int.floor_intCast]
  decide

lemma flog10_half : flog10 |(1 : ℚ) / 2| = -1 := by
  rw [abs_of_pos (by norm_num : (0 : ℚ) < 1 / 2)]
  rw [flog10, if_neg (by norm_num),
    show ((1 : ℚ) / 2)⁻¹ = ((2 : ℤ) : ℚ) by norm_num, Int.ceil_intCast]
  decide

lemma si_formCore_billionth :
    si_formCore ((1 : ℚ) / 1000000000) "A" 3 = .ok "1000.000 pA" := by
  rw [si_formCore, gee_billionth,
    show ((1 : ℚ) / 1000000000) / (10 : ℚ) ^ (-12 : ℤ) = ((1000 : ℚ)) by norm_num]
  rw [mantissaStr, if_neg (by norm_num : ¬(3 : ℤ) < 0),
    show Int.toNat 3 = 3 from rfl, fmtMantissa_three_thousand]
  rfl

lemma engineering_formCore_pow15 :
    engineering_formCore ((1000000000000000 : ℚ)) "Ω" 3 = .ok "1.000E15 Ω" := by
  rw [engineering_formCore, gee_pow15,
    show ((1000000000000000 : ℚ)) / (10 : ℚ) ^ (15 : ℤ) = ((1 : ℚ)) by norm_num]
  rw [mantissaStr, if_neg (by norm_num : ¬(3 : ℤ) < 0),
    show Int.toNat 3 = 3 from rfl, fmtMantissa_three_one]
  rfl

lemma si_formCore_pow63 :
    si_formCore ((1000000000000000000000000000000000000000000000000000000000000000 : ℚ))
      "V" 3 = .ok "1.000 V" := by
  rw [si_formCore, gee_pow63,
    show ((1000000000000000000000000000000000000000000000000000000000000000 : ℚ))
        / (10 : ℚ) ^ (63 : ℤ) = ((1 : ℚ)) by norm_num]
  rw [mantissaStr, if_neg (by norm_num : ¬(3 : ℤ) < 0),
    show Int.toNat 3 = 3 from rfl, fmtMantissa_three_one]
  rfl

lemma si_formCore_one : si_formCore ((1 : ℚ)) "" 3 = .ok "1.000" := by
  rw [si_formCore, gee_one,
    show ((1 : ℚ)) / (10 : ℚ) ^ (0 : ℤ) = ((1 : ℚ)) by norm_num]
  rw [mantissaStr, if_neg (by norm_num : ¬(3 : ℤ) < 0),
    show Int.toNat 3 = 3 from rfl, fmtMantissa_three_one]
  rfl

lemma si_formCore_zero : si_formCore ((0 : ℚ)) "" 3 = .ok "0.000" := by
  rw [si_formCore, gee_zero, zero_div]
  rw [mantissaStr, if_neg (by norm_num : ¬(3 : ℤ) < 0),
    show Int.toNat 3 = 3 from rfl, fmtMantissa_three_zero]
  rfl

lemma engineering_formCore_one : engineering_formCore ((1 : ℚ)) "" 3 = .ok "1.000" := by
  rw [engineering_formCore, gee_one,
    show ((1 : ℚ)) / (10 : ℚ) ^ (0 : ℤ) = ((1 : ℚ)) by norm_num]
  rw [mantissaStr, if_neg (by norm_num : ¬(3 : ℤ) < 0),
    show Int.toNat 3 = 3 from rfl, fmtMantissa_three_one]
  rfl

lemma engineering_formCore_zero :
    engineering_formCore ((0 : ℚ)) "" 3 = .ok "0.000" := by
  rw [engineering_formCore, gee_zero, zero_div]
  rw [mantissaStr, if_neg (by norm_num : ¬(3 : ℤ) < 0),
    show Int.toNat 3 = 3 from rfl, fmtMantissa_three_zero]
  rfl

/-- Sanity checks for the log model: int(log10(x)) truncates toward zero,
so every magnitude in (0.1, 10) has truncated log 0. -/
example : tlog10 ((1 : ℚ) / 2) = 0 := by
  rw [tlog10, if_neg (by norm_num),
    show ((1 : ℚ) / 2)⁻¹ = ((2 : ℤ) : ℚ) by norm_num, Int.floor_intCast]
  decide

example : natLog10 999 = 2 := by decide

example : natLog10 1000 = 3 := by decide

example : natClog10 200 = 3 := by decide

example : natClog10 100 = 2 := by decide

lemma str_append_empty (s : String) : s ++ "" = s := by
  apply String.ext
  rw [String.data_append]
  simp

/-- Claim C1: the claim asserts that for every nonzero x the selected
exponent e is a multiple of 3 and |x / 10 ^ e| lies in [1, 1000), or in
[0.1, 1000) in the negative-bias case.  At the input 0.001 the code
selects e = -6 — the truncated log -3 is already exact, the negative
bias moves it to -4 and the loop lands on -6 — so |x / 10 ^ e| is
exactly 1000, outside both stated ranges.  This evaluates the code at
that failing input. -/
theorem c1_range_violation_at_thousandth :
    get_engineering_exponent ((1 : ℚ) / 1000) = -6 ∧
    |((1 : ℚ) / 1000) / (10 : ℚ) ^ (-6 : ℤ)| = 1000 := by
  refine ⟨gee_thousandth, ?_⟩
  rw [show ((1 : ℚ) / 1000) / (10 : ℚ) ^ (-6 : ℤ) = (1000 : ℚ) by norm_num,
    abs_of_pos (by norm_num : (0 : ℚ) < 1000)]

/-- Claim C2: the claim (and the docstrings of _get_exp_str and
engineering_form in the source) say positive exponents print with an
explicit plus sign, e.g. 1.000E+15 Ω.  Both branches of _get_exp_str
build the same f-string E followed by str(exponent), and a positive
Python int prints without a sign, so the code produces 1.000E15 Ω. -/
theorem c2_no_plus_sign_on_positive_exponent :
    get_exp_str 15 = "E15" ∧
    engineering_form (.int 1000000000000000) (.str "Ω") (.int 3)
      = .ok "1.000E15 Ω" := by
  refine ⟨rfl, ?_⟩
  show engineering_formCore ((1000000000000000 : ℤ) : ℚ) "Ω" 3 = .ok "1.000E15 Ω"
  rw [show ((1000000000000000 : ℤ) : ℚ) = (1000000000000000 : ℚ) by norm_num]
  exact engineering_formCore_pow15

/-- Claim C3: the claim says si_form(0.000000001, A) returns 1.000 nA.
The code selects exponent -12 for 10 ^ -9: int(log10) is exactly -9,
the negative bias moves it to -10 and the loop lands on -12, so the
output is 1000.000 pA.  This evaluates the code at that input. -/
theorem c3_nano_example_gives_pico :
    si_form (.float ((1 : ℚ) / 1000000000)) (.str "A") (.int 3)
      = .ok "1000.000 pA" := by
  show si_formCore ((1 : ℚ) / 1000000000) "A" 3 = .ok "1000.000 pA"
  exact si_formCore_billionth

/-- Claim C4 counterexample: the claim describes the algorithm with
floor(log10(|x|)), but the code truncates toward zero (Python int()).
At x = 1/2 the floor-based algorithm of the claim yields
floor(log10(0.5)) = -1, biased to -2, rounded down to -3, while the code
truncates to 0, skips the bias, and returns 0. -/
theorem c4_floor_description_fails_at_half :
    specExponentAlgFloor ((1 : ℚ) / 2) = -3 ∧
    get_engineering_exponent ((1 : ℚ) / 2) = 0 ∧
    specExponentAlgFloor ((1 : ℚ) / 2) ≠ get_engineering_exponent ((1 : ℚ) / 2) := by
  have h1 : specExponentAlgFloor ((1 : ℚ) / 2) = -3 := by
    rw [specExponentAlgFloor, flog10_half]
    decide
  exact ⟨h1, gee_half, by rw [h1, gee_half]; decide⟩

/-- Claim C4 (amended): for every nonzero x,
_get_engineering_exponent(x) equals the algorithm: compute the
truncation toward zero of log10(|x|) — Python int(log10(|x|)) — not its
floor; if that value is negative, decrement it by one; then take the
largest multiple of 3 below (the repeated decrement of the source). -/
theorem c4_truncation_algorithm_agrees (x : ℚ) (hx : x ≠ 0) :
    get_engineering_exponent x = specExponentAlgTrunc x := by
  unfold get_engineering_exponent specExponentAlgTrunc negBias
  rw [if_neg hx, decToMult3_eq, roundDownMult3]

/-- Witness for C4 at x = 3. -/
theorem c4_truncation_algorithm_agrees_witness :
    (3 : ℚ) ≠ 0 ∧ get_engineering_exponent 3 = specExponentAlgTrunc 3 :=
  ⟨by norm_num, c4_truncation_algorithm_agrees 3 (by norm_num)⟩

/-- Claim C5 counterexample: the claim says si_form falls back to
literal exponent notation when the table has no prefix, and that
exponent 0 is the only case with no prefix, so |exponent| > 60 would
still carry the magnitude.  At 10 ^ 63 the selected exponent is 63, the
table lookup is empty, and si_form silently drops the factor 10 ^ 63:
the output is 1.000 V with no scale marker at all. -/
theorem c5_magnitude_dropped_beyond_table :
    get_engineering_exponent
      ((1000000000000000000000000000000000000000000000000000000000000000 : ℚ)) = 63 ∧
    si_prefixes 63 = none ∧
    si_form
      (.int 1000000000000000000000000000000000000000000000000000000000000000)
      (.str "V") (.int 3) = .ok "1.000 V" := by
  refine ⟨gee_pow63, rfl, ?_⟩
  show si_formCore
    ((1000000000000000000000000000000000000000000000000000000000000000 : ℤ) : ℚ)
    "V" 3 = .ok "1.000 V"
  rw [show ((1000000000000000000000000000000000000000000000000000000000000000 : ℤ) : ℚ)
      = (1000000000000000000000000000000000000000000000000000000000000000 : ℚ) by norm_num]
  exact si_formCore_pow63

/-- Claim C5 (amended): the lookup is empty exactly at exponent 0, at
exponents outside -60 .. 60, and at non-multiples of 3 (which are never
selected); whenever the lookup is empty si_form produces mantissa,
space, unit — right-stripped — with no prefix and no literal exponent
fallback, so for |exponent| > 60 the magnitude is silently dropped. -/
theorem c5_no_prefix_no_fallback :
    (∀ e : ℤ, si_prefixes e = none ↔ (e = 0 ∨ e < -60 ∨ 60 < e ∨ e % 3 ≠ 0)) ∧
    (∀ (x : ℚ) (u : String) (p : ℕ),
      si_prefixes (get_engineering_exponent x) = none →
      si_formCore x u ((p : ℕ) : ℤ)
        = .ok (rstrip (fmtMantissa p (x / 10 ^ get_engineering_exponent x)
            ++ " " ++ u))) := by
  refine ⟨si_prefixes_none_iff, fun x u p h => ?_⟩
  rw [si_formCore, mantissaStr, if_neg (by omega : ¬((p : ℕ) : ℤ) < 0),
    Int.toNat_natCast, h]

/-- Witness for C5 at x = 1/2 (selected exponent 0, empty lookup). -/
theorem c5_no_prefix_no_fallback_witness :
    si_prefixes (get_engineering_exponent ((1 : ℚ) / 2)) = none ∧
    si_formCore ((1 : ℚ) / 2) "W" ((3 : ℕ) : ℤ)
      = .ok (rstrip (fmtMantissa 3 (((1 : ℚ) / 2)
          / 10 ^ get_engineering_exponent ((1 : ℚ) / 2)) ++ " " ++ "W")) := by
  have h : si_prefixes (get_engineering_exponent ((1 : ℚ) / 2)) = none := by
    rw [gee_half]
    exact si_prefixes_zero
  exact ⟨h, c5_no_prefix_no_fallback.2 ((1 : ℚ) / 2) "W" 3 h⟩

/-- Claim C6: for input 0 the selected exponent is 0, and both si_form
and engineering_form format the mantissa as 0 with the configured number
of decimal places, appending no prefix and no exponent string; at the
default precision 3 both return 0.000 V. -/
theorem c6_zero_input_formatting :
    get_engineering_exponent 0 = 0 ∧
    (∀ p : ℕ,
      si_form (.int 0) (.str "V") (.int ((p : ℕ) : ℤ))
        = .ok (fmtMantissa p 0 ++ " V") ∧
      engineering_form (.int 0) (.str "V") (.int ((p : ℕ) : ℤ))
        = .ok (fmtMantissa p 0 ++ " V")) ∧
    si_form (.int 0) (.str "V") (.int 3) = .ok "0.000 V" ∧
    engineering_form (.int 0) (.str "V") (.int 3) = .ok "0.000 V" := by
  have hsi : ∀ p : ℕ,
      si_form (.int 0) (.str "V") (.int ((p : ℕ) : ℤ))
        = .ok (fmtMantissa p 0 ++ " V") := by
    intro p
    show si_formCore ((0 : ℤ) : ℚ) "V" ((p : ℕ) : ℤ) = .ok (fmtMantissa p 0 ++ " V")
    rw [si_formCore, Int.cast_zero, gee_zero, zero_div, mantissaStr,
      if_neg (by omega : ¬((p : ℕ) : ℤ) < 0), Int.toNat_natCast, si_prefixes_zero]
    show Except.ok (rstrip (fmtMantissa p 0 ++ " " ++ "V"))
      = Except.ok (fmtMantissa p 0 ++ " V")
    rw [String.append_assoc, show (" " : String) ++ "V" = " V" from rfl,
      rstrip_space_V]
  have heng : ∀ p : ℕ,
      engineering_form (.int 0) (.str "V") (.int ((p : ℕ) : ℤ))
        = .ok (fmtMantissa p 0 ++ " V") := by
    intro p
    show engineering_formCore ((0 : ℤ) : ℚ) "V" ((p : ℕ) : ℤ)
      = .ok (fmtMantissa p 0 ++ " V")
    rw [engineering_formCore, Int.cast_zero, gee_zero, zero_div, mantissaStr,
      if_neg (by omega : ¬((p : ℕ) : ℤ) < 0), Int.toNat_natCast]
    show Except.ok (fmtMantissa p 0 ++ get_exp_str 0 ++ " " ++ "V")
      = Except.ok (fmtMantissa p 0 ++ " V")
    rw [show get_exp_str 0 = "" from rfl, str_append_empty, String.append_assoc,
      show (" " : String) ++ "V" = " V" from rfl]
  refine ⟨gee_zero, fun p => ⟨hsi p, heng p⟩, ?_, ?_⟩
  · have h := hsi 3
    rw [fmtMantissa_three_zero,
      show ("0.000" : String) ++ " V" = "0.000 V" from rfl] at h
    exact h
  · have h := heng 3
    rw [fmtMantissa_three_zero,
      show ("0.000" : String) ++ " V" = "0.000 V" from rfl] at h
    exact h

/-- Claim C7 counterexample: the claim says every validation error names
the function that rejected it.  A non-numeric number passed to si_form
is rejected with the message of engineering_form — the literal string
below — which does not contain si_form at all. -/
theorem c7_si_form_error_names_engineering_form :
    si_form (.str "abc") (.str "") (.int 3)
      = .error "engineering_form() input number only accepts numbers (int or float)" ∧
    strContains "engineering_form() input number only accepts numbers (int or float)"
      "si_form" = false := by
  exact ⟨rfl, by decide⟩

/-- Claim C7 (amended): every validation error of si_form and
engineering_form names the offending parameter, but the function named
in the message is always engineering_form — si_form reuses the messages
of engineering_form, so its errors name the wrong function — while the
sif and engf aliases raise errors naming themselves but no parameter. -/
theorem c7_validation_error_messages :
    (∀ (v u r : PyVal), isNumber v = false →
      si_form v u r
        = .error "engineering_form() input number only accepts numbers (int or float)" ∧
      engineering_form v u r
        = .error "engineering_form() input number only accepts numbers (int or float)" ∧
      sif v u r = .error "sif() only accepts numbers" ∧
      engf v u r = .error "engf() only accepts numbers") ∧
    (∀ (v u r : PyVal), isNumber v = true → isStr u = false →
      si_form v u r = .error "engineering_form() input unit only accepts strings" ∧
      engineering_form v u r
        = .error "engineering_form() input unit only accepts strings") ∧
    (∀ (v u r : PyVal), isNumber v = true → isStr u = true → isIntLike r = false →
      si_form v u r
        = .error "engineering_form() input round_to_decimal_places only accepts integers" ∧
      engineering_form v u r
        = .error "engineering_form() input round_to_decimal_places only accepts integers") := by
  refine ⟨fun v u r h => ?_, fun v u r h1 h2 => ?_, fun v u r h1 h2 h3 => ?_⟩
  · simp [si_form, engineering_form, sif, engf, h]
  · simp [si_form, engineering_form, h1, h2]
  · simp [si_form, engineering_form, h1, h2, h3]

/-- Witness for C7 with a str number, an int unit and a str precision. -/
theorem c7_validation_error_messages_witness :
    (isNumber (.str "abc") = false ∧
      si_form (.str "abc") (.str "") (.int 3)
        = .error "engineering_form() input number only accepts numbers (int or float)" ∧
      engineering_form (.str "abc") (.str "") (.int 3)
        = .error "engineering_form() input number only accepts numbers (int or float)" ∧
      sif (.str "abc") (.str "") (.int 3) = .error "sif() only accepts numbers" ∧
      engf (.str "abc") (.str "") (.int 3) = .error "engf() only accepts numbers") ∧
    (isNumber (.int 5) = true ∧ isStr (.int 7) = false ∧
      si_form (.int 5) (.int 7) (.int 3)
        = .error "engineering_form() input unit only accepts strings" ∧
      engineering_form (.int 5) (.int 7) (.int 3)
        = .error "engineering_form() input unit only accepts strings") ∧
    (isIntLike (.str "x") = false ∧
      si_form (.int 5) (.str "V") (.str "x")
        = .error "engineering_form() input round_to_decimal_places only accepts integers" ∧
      engineering_form (.int 5) (.str "V") (.str "x")
        = .error "engineering_form() input round_to_decimal_places only accepts integers") := by
  refine ⟨⟨rfl, c7_validation_error_messages.1 (.str "abc") (.str "") (.int 3) rfl⟩,
    ⟨rfl, rfl, c7_validation_error_messages.2.1 (.int 5) (.int 7) (.int 3) rfl rfl⟩,
    ⟨rfl, c7_validation_error_messages.2.2 (.int 5) (.str "V") (.str "x") rfl rfl rfl⟩⟩

/-- Claim C8 counterexample: the claim says round_to_decimal_places is
validated to be a non-negative integer before any computation.  The
code only checks isinstance(int): the negative integer -1 passes
validation, the exponent and the rounding are computed, and the call
then dies in the format specifier with a ValueError that names no
parameter. -/
theorem c8_negative_precision_passes_validation :
    si_form (.int 1000) (.str "V") (.int (-1))
      = .error "ValueError: Invalid format specifier" ∧
    strContains "ValueError: Invalid format specifier"
      "round_to_decimal_places" = false := by
  constructor
  · show si_formCore ((1000 : ℤ) : ℚ) "V" (-1)
      = .error "ValueError: Invalid format specifier"
    rw [si_formCore, mantissaStr, if_pos (by norm_num : (-1 : ℤ) < 0)]
  · decide

/-- Claim C8 (amended): si_form and engineering_form validate only that
round_to_decimal_places is an integer (a bool also passes, being a
Python int): non-integers fail upfront with the TypeError naming the
parameter, but a negative integer passes validation and the call fails
later, during mantissa formatting, with a ValueError from the format
specifier that names no parameter. -/
theorem c8_precision_validation_shape :
    (∀ (v u r : PyVal), isNumber v = true → isStr u = true → isIntLike r = false →
      si_form v u r
        = .error "engineering_form() input round_to_decimal_places only accepts integers" ∧
      engineering_form v u r
        = .error "engineering_form() input round_to_decimal_places only accepts integers") ∧
    (∀ (n : ℤ) (u : String) (p : ℤ), p < 0 →
      si_form (.int n) (.str u) (.int p)
        = .error "ValueError: Invalid format specifier" ∧
      engineering_form (.int n) (.str u) (.int p)
        = .error "ValueError: Invalid format specifier") := by
  constructor
  · intro v u r h1 h2 h3
    simp [si_form, engineering_form, h1, h2, h3]
  · intro n u p hp
    constructor
    · show si_formCore ((n : ℤ) : ℚ) u p = .error "ValueError: Invalid format specifier"
      rw [si_formCore, mantissaStr, if_pos hp]
    · show engineering_formCore ((n : ℤ) : ℚ) u p
        = .error "ValueError: Invalid format specifier"
      rw [engineering_formCore, mantissaStr, if_pos hp]

/-- Witness for C8 with a bool precision (passes) and precision -1. -/
theorem c8_precision_validation_shape_witness :
    (isIntLike (.float ((1 : ℚ) / 2)) = false ∧
      si_form (.int 5) (.str "V") (.float ((1 : ℚ) / 2))
        = .error "engineering_form() input round_to_decimal_places only accepts integers" ∧
      engineering_form (.int 5) (.str "V") (.float ((1 : ℚ) / 2))
        = .error "engineering_form() input round_to_decimal_places only accepts integers") ∧
    ((-1 : ℤ) < 0 ∧
      si_form (.int 1000) (.str "V") (.int (-1))
        = .error "ValueError: Invalid format specifier" ∧
      engineering_form (.int 1000) (.str "V") (.int (-1))
        = .error "ValueError: Invalid format specifier") := by
  refine ⟨⟨rfl, c8_precision_validation_shape.1 (.int 5) (.str "V")
      (.float ((1 : ℚ) / 2)) rfl rfl rfl⟩,
    ⟨by norm_num, c8_precision_validation_shape.2 1000 "V" (-1) (by norm_num)⟩⟩

/-- Claim C9: for every valid triple — numeric number, str unit, int
precision — sif returns exactly what si_form returns, and engf returns
exactly what engineering_form returns: the aliases only repeat the
numeric check and delegate. -/
theorem c9_aliases_delegate (v u r : PyVal) (hv : isNumber v = true)
    (_hu : isStr u = true) (_hr : isIntLike r = true) :
    sif v u r = si_form v u r ∧ engf v u r = engineering_form v u r := by
  simp [sif, engf, hv]

/-- Witness for C9 at (5, V, 3). -/
theorem c9_aliases_delegate_witness :
    (isNumber (.int 5) = true ∧ isStr (.str "V") = true ∧
      isIntLike (.int 3) = true) ∧
    sif (.int 5) (.str "V") (.int 3) = si_form (.int 5) (.str "V") (.int 3) ∧
    engf (.int 5) (.str "V") (.int 3)
      = engineering_form (.int 5) (.str "V") (.int 3) :=
  ⟨⟨rfl, rfl, rfl⟩, c9_aliases_delegate (.int 5) (.str "V") (.int 3) rfl rfl rfl⟩

/-- Claim C10: booleans are accepted as numbers by all four entry points
(Python bool is a subclass of int), and format as 1 or 0: at the default
precision and empty unit, True yields 1.000 and False yields 0.000. -/
theorem c10_bool_accepted_as_number (b : Bool) :
    si_form (.bool b) (.str "") (.int 3)
      = .ok (if b then "1.000" else "0.000") ∧
    engineering_form (.bool b) (.str "") (.int 3)
      = .ok (if b then "1.000" else "0.000") ∧
    sif (.bool b) (.str "") (.int 3) = .ok (if b then "1.000" else "0.000") ∧
    engf (.bool b) (.str "") (.int 3) = .ok (if b then "1.000" else "0.000") := by
  cases b
  · exact ⟨si_formCore_zero, engineering_formCore_zero,
      si_formCore_zero, engineering_formCore_zero⟩
  · exact ⟨si_formCore_one, engineering_formCore_one,
      si_formCore_one, engineering_formCore_one⟩

end EngineeringNotation
